import Mathlib

/-!
Shallow embedding of the Lap-Lens backend core
(src/backend/app: utils/preprocess.py, utils/race_event_extractor.py,
services/inference.py, services/race_story.py, api/routes.py).

Python floats are modelled as rationals (ℚ); NaN and None are explicit
constructors of the `PyVal` type.  Fallible code returns `Except`.
Wall-clock timestamps are not modelled: no verified property mentions them.
-/

namespace LapLens

/-- A Python value as it appears in the request / result dictionaries of the
backend: `vNone` is Python `None`, `vNaN` is a float NaN, `vNum` a finite
float, `vInt` an int, `vBool` a bool, `vStr` a string. -/
inductive PyVal
| vNone
| vNaN
| vNum (q : ℚ)
| vInt (n : ℤ)
| vBool (b : Bool)
| vStr (s : String)
deriving DecidableEq, Repr

/-- A Python dict with string keys, as an association list (keys unique in
all dictionaries the backend builds; lookup takes the first binding). -/
def Dict : Type := List (String × PyVal)

/-- `data[k]` / `k in data`: first binding for `k`, if any. -/
def dictGet (d : Dict) (k : String) : Option PyVal :=
  match d with
  | [] => none
  | (k', v) :: t => if k' = k then some v else dictGet t k

/-- The canonical feature list `NUMERIC_FEATURES` (= `FEATURE_COLUMNS`) from
src/backend/app/core/config.py. -/
def NUMERIC_FEATURES : List String :=
  ["vehicle_id", "lap", "max_speed", "avg_speed", "std_speed", "avg_throttle",
   "brake_front_freq", "brake_rear_freq", "dominant_gear", "avg_steer_angle",
   "avg_long_accel", "avg_lat_accel", "avg_rpm",
   "rolling_std_lap_time", "lap_time_delta", "tire_wear_high",
   "air_temp", "track_temp", "humidity", "pressure", "wind_speed",
   "wind_direction", "rain"]

/-- The check `data[field] is None or (isinstance(data[field], float) and
np.isnan(data[field]))` from `validate_input_data`
(src/backend/app/utils/preprocess.py, lines 126-128). -/
def isInvalidVal : PyVal → Bool
| .vNone => true
| .vNaN => true
| _ => false

/-- Result of `validate_input_data`.  The Python function returns
`(False, "Missing required fields: {missing}")` where `missing` is the
*set* of absent required fields; `missingError` carries that set as the
sublist of the required list that is absent (same elements, canonical
order).  `invalidValue f` is `(False, "Field '{f}' contains invalid
value")`, and `ok` is `(True, "")`. -/
inductive ValidationResult
| ok
| missingError (missing : List String)
| invalidValue (field : String)
deriving DecidableEq, Repr

/-- `validate_input_data(data, required_fields)`
(src/backend/app/utils/preprocess.py, lines 110-130): first the set-difference
missing-fields check, then a scan of `required_fields` in order returning the
first field whose value is `None`/NaN. -/
def validate_input_data (data : Dict) (required_fields : List String) :
    ValidationResult :=
  let missing := required_fields.filter (fun f => (dictGet data f).isNone)
  if missing ≠ [] then .missingError missing
  else
    match required_fields.find? (fun f => isInvalidVal ((dictGet data f).getD .vNone)) with
    | some f => .invalidValue f
    | none => .ok

/-- Python `float(v)` on the value kinds the backend feeds it.  `vNone` and
non-numeric strings raise (`none`); NaN inputs are excluded upstream by
`validate_input_data` before any conversion happens on the served path, so
the NaN case is mapped to `none` as well rather than given a NaN payload. -/
def pyFloat : PyVal → Option ℚ
| .vNum q => some q
| .vInt n => some (n : ℚ)
| .vBool b => some (if b then 1 else 0)
| _ => none

/-- Error raised by `preprocess_input_dict`: `missingFeature f` is
`ValueError(f"Missing feature: {f}")`; `badValue f` is the `float()`
conversion failing on field `f`. -/
inductive PreprocessError
| missingFeature (f : String)
| badValue (f : String)
deriving DecidableEq, Repr

/-- Metadata dict built by `preprocess_input_dict`
(src/backend/app/utils/preprocess.py, lines 168-172).  The `int()`
conversions are applied to values that are ints on the served path. -/
structure Metadata where
  session_id : Option PyVal
  vehicle_id : Option PyVal
  lap : Option PyVal
deriving DecidableEq, Repr

/-- The feature-extraction loop of `preprocess_input_dict`: walk
`numeric_features` in canonical order, raising on the first absent feature,
converting each present value with `float()`. -/
def extractFeatures (input_dict : Dict) : List String → Except PreprocessError (List ℚ)
| [] => .ok []
| f :: t =>
    match dictGet input_dict f with
    | none => .error (.missingFeature f)
    | some v =>
        match pyFloat v with
        | none => .error (.badValue f)
        | some q => (extractFeatures input_dict t).map (fun r => q :: r)

/-- `preprocess_input_dict(input_dict, numeric_features)`
(src/backend/app/utils/preprocess.py, lines 146-174): the ordered feature
row plus the metadata dict. -/
def preprocess_input_dict (input_dict : Dict) (numeric_features : List String) :
    Except PreprocessError (List ℚ × Metadata) :=
  (extractFeatures input_dict numeric_features).map fun X =>
    (X, ⟨dictGet input_dict "session_id", dictGet input_dict "vehicle_id",
         dictGet input_dict "lap"⟩)

/-! ### Inference engine (src/backend/app/services/inference.py) -/

/-- Python `max(seq)`: `none` models the `ValueError` raised on an empty
sequence (sklearn's `predict_proba` rows and `feature_importances_` are
nonempty in a well-formed model, but the embedding keeps the raising case). -/
def pyMax : List ℚ → Option ℚ
| [] => none
| h :: t => some (t.foldl max h)

/-- A loaded lap-time regressor artifact: `predict` on a single scaled row,
plus the optional `feature_importances_` attribute. -/
structure RegressorModel where
  predictFn : List ℚ → ℚ
  featureImportances : Option (List ℚ)

/-- A loaded classifier artifact: `predict` and `predict_proba` on a single
scaled row (`α` is `Bool` for pit-imminent, `String` for tire compound). -/
structure ClassifierModel (α : Type) where
  predictFn : List ℚ → α
  predictProbaFn : List ℚ → List ℚ

/-- Fitted `StandardScaler` state: per-feature mean and scale. -/
structure ScalerState where
  mean : List ℚ
  scale : List ℚ

/-- `scaler.transform` on one row: `(x - mean) / scale`, element-wise, in
the fitted feature order. -/
def scalerTransform (s : ScalerState) (x : List ℚ) : List ℚ :=
  List.zipWith (fun xi (p : ℚ × ℚ) => (xi - p.1) / p.2) x (s.mean.zip s.scale)

/-- The `InferenceEngine` state right after `_load_models`
(src/backend/app/services/inference.py, lines 23-86): each artifact is
present iff its file existed on disk.  The model directory is fixed for the
process lifetime, so `_load_models` is deterministic and re-running it from
`ensure_models_loaded` reproduces the same state. -/
structure EngineState where
  lap_time_model : Option RegressorModel
  pit_imminent_model : Option (ClassifierModel Bool)
  tire_compound_model : Option (ClassifierModel String)
  scaler : Option ScalerState
  feature_columns : Option (List String)

/-- The `models_loaded` flag computed at src/backend/app/services/inference.py
lines 72-77: all three models AND the scaler.  `ensure_models_loaded`
(lines 88-93) re-runs `_load_models` against the same fixed disk state and
returns this same value. -/
def modelsLoaded (e : EngineState) : Bool :=
  e.lap_time_model.isSome && e.pit_imminent_model.isSome &&
  e.tire_compound_model.isSome && e.scaler.isSome

/-- Errors surfaced by engine methods: `modelNotLoaded` is the
`RuntimeError("... not loaded")` family; `internalError` is any other
exception escaping a prediction call (e.g. `max()` on an empty
probability row). -/
inductive InferError
| modelNotLoaded
| internalError
deriving DecidableEq, Repr

/-- `InferenceEngine._estimate_confidence`
(src/backend/app/services/inference.py, lines 232-257): from the max
feature importance when the attribute exists, else the 0.75 default; any
exception inside (e.g. `np.max` of an empty array) also yields 0.75; the
result is capped at 1.0. -/
def estimateConfidence (m : RegressorModel) : ℚ :=
  match m.featureImportances with
  | some imps =>
      match pyMax imps with
      | some mx => min (1/2 + 1/2 * mx) 1
      | none => 3/4
  | none => min (3/4) 1

/-- `InferenceEngine.predict_lap_time` (lines 121-145). -/
def predict_lap_time (e : EngineState) (X : List ℚ) : Except InferError (ℚ × ℚ) :=
  match e.lap_time_model with
  | none => .error .modelNotLoaded
  | some m => .ok (m.predictFn X, estimateConfidence m)

/-- `InferenceEngine.predict_pit_imminent` (lines 147-170): the returned
probability is `max(predict_proba(X)[0])`. -/
def predict_pit_imminent (e : EngineState) (X : List ℚ) : Except InferError (Bool × ℚ) :=
  match e.pit_imminent_model with
  | none => .error .modelNotLoaded
  | some m =>
      match pyMax (m.predictProbaFn X) with
      | none => .error .internalError
      | some p => .ok (m.predictFn X, p)

/-- `InferenceEngine.predict_tire_compound` (lines 172-195): the returned
confidence is `max(predict_proba(X)[0])`. -/
def predict_tire_compound (e : EngineState) (X : List ℚ) : Except InferError (String × ℚ) :=
  match e.tire_compound_model with
  | none => .error .modelNotLoaded
  | some m =>
      match pyMax (m.predictProbaFn X) with
      | none => .error .internalError
      | some p => .ok (m.predictFn X, p)

/-- The combined results dict built by `predict_all`. -/
structure AllResults where
  lap_time : ℚ
  lap_time_confidence : ℚ
  pit_imminent : Bool
  pit_probability : ℚ
  tire_compound : String
  tire_confidence : ℚ
deriving DecidableEq, Repr

/-- `InferenceEngine.predict_all` (src/backend/app/services/inference.py,
lines 197-230): guard on `ensure_models_loaded` (= `models_loaded` for the
fixed disk state), then the three predictions in sequence; any failure
aborts the whole call. -/
def predict_all (e : EngineState) (X : List ℚ) : Except InferError AllResults :=
  if !(modelsLoaded e) then .error .modelNotLoaded
  else
    match predict_lap_time e X with
    | .error er => .error er
    | .ok lt =>
        match predict_pit_imminent e X with
        | .error er => .error er
        | .ok pi =>
            match predict_tire_compound e X with
            | .error er => .error er
            | .ok tc => .ok ⟨lt.1, lt.2, pi.1, pi.2, tc.1, tc.2⟩

/-- Python truthiness of a list (`self.feature_columns or NUMERIC_FEATURES`):
`None` and the empty list are falsy. -/
def pyOrFeatures (fc : Option (List String)) : List String :=
  match fc with
  | none => NUMERIC_FEATURES
  | some l => if l = [] then NUMERIC_FEATURES else l

/-- `InferenceEngine.preprocess_prediction_input` (lines 95-119): extract in
canonical order, then scale if the scaler is available, else pass the
unscaled row through. -/
def preprocess_prediction_input (e : EngineState) (input_data : Dict) :
    Except PreprocessError (List ℚ × Metadata) :=
  (preprocess_input_dict input_data (pyOrFeatures e.feature_columns)).map
    fun r =>
      match e.scaler with
      | some s => (scalerTransform s r.1, r.2)
      | none => r

/-! ### Prediction log records

The routes append `{'type': ..., 'timestamp': ..., 'result': response.model_dump()}`
to `sessions[id]['predictions']`.  The result dict is modelled as a record of
optional fields covering the union of the response schemas
(src/backend/app/schemas/prediction.py); a field is `none` when the key is
absent from that record's dict.  Timestamps are not modelled (no claim
reads them). -/

/-- The `'type'` tag of a logged prediction record. -/
inductive RecType
| lap_time
| pit_imminent
| tire_compound
| all
deriving DecidableEq, Repr

/-- The `'result'` dict of a logged prediction record, as optional typed
fields (union of `LapTimeResponse`, `PitImminentResponse`,
`TireCompoundResponse`, `AllPredictionsResponse`, plus the `max_speed` key
probed by `calculate_summary_stats`). -/
structure PredResult where
  session_id : Option String := none
  vehicle_id : Option ℤ := none
  lap : Option ℤ := none
  predicted_lap_time : Option ℚ := none
  confidence : Option ℚ := none
  explanation : Option String := none
  pit_imminent : Option Bool := none
  probability : Option ℚ := none
  suggested_compound : Option String := none
  lap_time : Option ℚ := none
  lap_time_confidence : Option ℚ := none
  pit_probability : Option ℚ := none
  tire_compound : Option String := none
  tire_confidence : Option ℚ := none
  max_speed : Option ℚ := none
deriving DecidableEq, Repr

/-- One entry of `sessions[id]['predictions']`. -/
structure PredRecord where
  rtype : RecType
  result : PredResult
deriving DecidableEq, Repr

/-- Python truthiness of an optional float (`if prev_lap_time and lap_time`):
`None` and `0.0` are falsy. -/
def truthyQ : Option ℚ → Bool
| none => false
| some q => q != 0

/-- Python truthiness of an optional bool (`if pit_imminent ...`):
`None` and `False` are falsy. -/
def truthyB : Option Bool → Bool
| none => false
| some b => b

/-- The kind of an extracted race event.  Each constructor stands for the
f-string built at the corresponding line of
src/backend/app/utils/race_event_extractor.py; the payload carries exactly
the data interpolated into that string:
`paceImprovement delta` = "Strong pace improvement, lap time dropped {|delta|:.2f}s" (line 45);
`tireDegradation delta` = "Tire degradation noticed, lap time increased {delta:.2f}s" (line 48);
`trafficIncident` = "Traffic detected or incident, lap time inconsistent" (line 51);
`pitStopImminent` = "Pit stop imminent - high tire degradation detected" (line 63);
`pitStopExecuted c` = "Pit stop executed - switched to {c} tires" (line 72). -/
inductive EventKind
| paceImprovement (delta : ℚ)
| tireDegradation (delta : ℚ)
| trafficIncident
| pitStopImminent
| pitStopExecuted (compound : Option String)
deriving DecidableEq, Repr

/-- One extracted race event: `{"lap": lap, "event": event}`. -/
structure RaceEvent where
  lap : Option ℤ
  event : EventKind
deriving DecidableEq, Repr

/-- The two pieces of state carried across the `extract_race_events` loop
(src/backend/app/utils/race_event_extractor.py, lines 27-28). -/
structure ExtractState where
  prev_lap_time : Option ℚ
  prev_pit_imminent : Bool
deriving DecidableEq, Repr

/-- One iteration of the `extract_race_events` loop body (lines 30-77):
returns the updated carried state and the events appended by this record
(at most one).  No modelled operation raises, so the per-record
`try`/`except` is inert. -/
def extractStep (s : ExtractState) (p : PredRecord) : ExtractState × List RaceEvent :=
  match p.rtype with
  | .lap_time =>
      let lap := p.result.lap
      let lap_time := p.result.predicted_lap_time
      let confidence := (p.result.confidence).getD 0
      let events :=
        if truthyQ s.prev_lap_time && truthyQ lap_time then
          let time_delta := lap_time.getD 0 - s.prev_lap_time.getD 0
          if time_delta < -(1/2) then [⟨lap, .paceImprovement time_delta⟩]
          else if time_delta > 1 then [⟨lap, .tireDegradation time_delta⟩]
          else if confidence < 2/5 then [⟨lap, .trafficIncident⟩]
          else []
        else []
      ({ s with prev_lap_time := lap_time }, events)
  | .pit_imminent =>
      let pi := truthyB p.result.pit_imminent
      let probability := (p.result.probability).getD 0
      if pi && !s.prev_pit_imminent && probability > 7/10 then
        ({ s with prev_pit_imminent := true }, [⟨p.result.lap, .pitStopImminent⟩])
      else if !pi then
        ({ s with prev_pit_imminent := false }, [])
      else (s, [])
  | .tire_compound =>
      (s, [⟨p.result.lap, .pitStopExecuted p.result.suggested_compound⟩])
  | .all => (s, [])

/-- The `extract_race_events` loop from a given carried state. -/
def extractAux (s : ExtractState) : List PredRecord → List RaceEvent
| [] => []
| p :: t =>
    let r := extractStep s p
    r.2 ++ extractAux r.1 t

/-- `extract_race_events(session_predictions)`
(src/backend/app/utils/race_event_extractor.py, lines 11-80): initial state
`prev_lap_time = None`, `prev_pit_imminent = False` (the early return on an
empty list yields `[]`, as the loop does). -/
def extract_race_events (session_predictions : List PredRecord) : List RaceEvent :=
  extractAux ⟨none, false⟩ session_predictions

/-! ### Summary statistics (race_event_extractor.py, lines 83-165) -/

/-- A Python float that may be `float('inf')`, used for the `best_lap`
accumulator (initialized to `float('inf')`). -/
inductive PyInf
| inf
| fin (q : ℚ)
deriving DecidableEq, Repr

/-- `min(best, x)` where `best` may be `float('inf')`. -/
def pyInfMin (b : PyInf) (x : ℚ) : PyInf :=
  match b with
  | .inf => .fin x
  | .fin q => .fin (min q x)

/-- Python 3 `round(q, ndigits)` on an exact rational: round half to even at
the given decimal place. -/
def pyRound (q : ℚ) (ndigits : ℕ) : ℚ :=
  let m : ℚ := ((10 : ℕ) ^ ndigits : ℕ)
  let x := q * m
  let f := ⌊x⌋
  let r : ℤ :=
    if x - f < 1/2 then f
    else if x - f > 1/2 then f + 1
    else if 2 ∣ f then f else f + 1
  (r : ℚ) / m

/-- `round(q, 3)` lifted over a possibly-infinite value
(`round(float('inf'), 3)` is `float('inf')`; on the served path the rounded
value is always finite). -/
def pyInfRound3 : PyInf → PyInf
| .inf => .inf
| .fin q => .fin (pyRound q 3)

/-- The accumulators threaded through the `calculate_summary_stats` loop
(lines 99-135): the `lap_times` list, the running `best_lap`, the running
`total_laps` max, the `pit_count`, and the `max_speeds` list. -/
structure StatsAcc where
  lap_times : List ℚ
  best_lap : PyInf
  total_laps : ℤ
  pit_count : ℕ
  max_speeds : List ℚ
deriving DecidableEq, Repr

/-- One iteration of the `calculate_summary_stats` loop body (lines 113-135):
lap-time records with a truthy predicted value feed the lap accumulators;
tire-compound records bump the pit counter; any record whose result dict has
a `max_speed` key feeds the speed list. -/
def statsStep (a : StatsAcc) (p : PredRecord) : StatsAcc :=
  let a1 :=
    match p.rtype with
    | .lap_time =>
        if truthyQ p.result.predicted_lap_time then
          let lt := p.result.predicted_lap_time.getD 0
          { a with
            lap_times := a.lap_times ++ [lt],
            best_lap := pyInfMin a.best_lap lt,
            total_laps := max a.total_laps ((p.result.lap).getD 0) }
        else a
    | .tire_compound => { a with pit_count := a.pit_count + 1 }
    | _ => a
  match p.result.max_speed with
  | some ms => { a1 with max_speeds := a1.max_speeds ++ [ms] }
  | none => a1

/-- The fields of the returned summary-stats dict that the verified claims
mention, plus `max_speed`.  `final_position` (always `None`) and
`weather_summary` (a string derived from the optional weather argument,
lines 148-159) carry no verified property and are omitted. -/
structure SummaryStats where
  total_laps : ℤ
  best_lap : PyInf
  avg_lap_time : ℚ
  pit_stops : ℕ
  max_speed : ℚ
deriving DecidableEq, Repr

/-- `calculate_summary_stats(session_data, session_predictions, weather_data)`
(src/backend/app/utils/race_event_extractor.py, lines 83-165), restricted to
the fields above.  `session_data` and `weather_data` influence none of them
and are dropped from the embedding's signature. -/
def calculate_summary_stats (session_predictions : List PredRecord) : SummaryStats :=
  let a := session_predictions.foldl statsStep ⟨[], .inf, 0, 0, []⟩
  let best := if a.lap_times ≠ [] then pyInfRound3 a.best_lap else a.best_lap
  let avg : ℚ :=
    if a.lap_times ≠ [] then pyRound (a.lap_times.sum / a.lap_times.length) 3 else 0
  let ms : ℚ :=
    match pyMax a.max_speeds with
    | some mx => pyRound mx 1
    | none => 0
  ⟨a.total_laps, best, avg, a.pit_count, ms⟩

/-! ### Race story generator (src/backend/app/services/race_story.py) -/

/-- Outcome of the external `model.generate_content(prompt)` call inside
`generate_story`'s `try` block (the prompt-building helpers are total and
cannot raise): `success t` is a response with truthy text `t`, `empty` a
falsy response or falsy text, `failure e` an exception with message `e`. -/
inductive GenOutcome
| success (text : String)
| empty
| failure (err : String)
deriving DecidableEq, Repr

/-- `RaceStoryGenerator.generate_story`
(src/backend/app/services/race_story.py, lines 39-93), as a function of the
availability flag (`self.model is not None`) and of the collaborator-call
outcome.  It is total: the `except Exception` clause converts any
collaborator failure into a returned string, so nothing propagates past the
call boundary. -/
def generate_story (available : Bool) (outcome : GenOutcome) : String :=
  if !available then "Story unavailable: Gemini API key not configured."
  else
    match outcome with
    | .success t => t.trim
    | .empty => "Unable to generate race story at this time."
    | .failure e => "Story generation failed: " ++ e

/-! ### Session store and API routes (src/backend/app/api/routes.py) -/

/-- Session lifecycle status. -/
inductive SessionStatus
| active
| closed
deriving DecidableEq, Repr

/-- One entry of the global `sessions` dict (routes.py, lines 57-64);
`created_at` is a wall-clock value no claim reads and is omitted. -/
structure Session where
  session_id : String
  vehicle_id : ℤ
  race_name : String
  status : SessionStatus
  predictions : List PredRecord
deriving DecidableEq, Repr

/-- The global `sessions` dict, keyed by session id (keys unique). -/
def SessionStore : Type := List (String × Session)

/-- `sessions[id]` lookup. -/
def lookupSession (st : SessionStore) (id : String) : Option Session :=
  match st with
  | [] => none
  | (k, s) :: t => if k = id then some s else lookupSession t id

/-- In-place update of one session. -/
def updateSession (st : SessionStore) (id : String) (f : Session → Session) :
    SessionStore :=
  st.map fun kv => if kv.1 = id then (kv.1, f kv.2) else kv

/-- `sessions[id]['predictions'].append(rec)`. -/
def appendRecord (st : SessionStore) (id : String) (rec : PredRecord) : SessionStore :=
  updateSession st id fun s => { s with predictions := s.predictions ++ [rec] }

/-- Overwrite one session's status field, leaving everything else unchanged
(used to state that the predict routes never read the status). -/
def setStatus (st : SessionStore) (id : String) (c : SessionStatus) : SessionStore :=
  updateSession st id fun s => { s with status := c }

/-- A parsed `PredictionRequest` (src/backend/app/schemas/prediction.py):
pydantic guarantees `session_id`, `vehicle_id` and `lap`; the remaining 20
declared float fields are carried as a key/value list in declaration order.
Parsed floats are finite here; the NaN branch of validation is exercised on
raw dicts directly. -/
structure PredictionRequest where
  session_id : String
  vehicle_id : ℤ
  lap : ℤ
  telemetry : List (String × ℚ)

/-- `request.model_dump()`: the field dict in declaration order. -/
def PredictionRequest.model_dump (r : PredictionRequest) : Dict :=
  ("session_id", .vStr r.session_id) :: ("vehicle_id", .vInt r.vehicle_id) ::
  ("lap", .vInt r.lap) :: r.telemetry.map (fun kv => (kv.1, .vNum kv.2))

/-- `LapTimeResponse` (schemas/prediction.py, lines 36-55). -/
structure LapTimeResponse where
  session_id : String
  vehicle_id : ℤ
  lap : ℤ
  predicted_lap_time : ℚ
  confidence : ℚ
  explanation : Option String
deriving DecidableEq, Repr

/-- `response.model_dump()` for a lap-time response. -/
def LapTimeResponse.dump (r : LapTimeResponse) : PredResult :=
  { session_id := some r.session_id, vehicle_id := some r.vehicle_id,
    lap := some r.lap, predicted_lap_time := some r.predicted_lap_time,
    confidence := some r.confidence, explanation := r.explanation }

/-- `PitImminentResponse` (schemas/prediction.py, lines 58-77). -/
structure PitImminentResponse where
  session_id : String
  vehicle_id : ℤ
  lap : ℤ
  pit_imminent : Bool
  probability : ℚ
  explanation : Option String
deriving DecidableEq, Repr

/-- `response.model_dump()` for a pit-imminent response. -/
def PitImminentResponse.dump (r : PitImminentResponse) : PredResult :=
  { session_id := some r.session_id, vehicle_id := some r.vehicle_id,
    lap := some r.lap, pit_imminent := some r.pit_imminent,
    probability := some r.probability, explanation := r.explanation }

/-- `TireCompoundResponse` (schemas/prediction.py, lines 80-99). -/
structure TireCompoundResponse where
  session_id : String
  vehicle_id : ℤ
  lap : ℤ
  suggested_compound : String
  confidence : ℚ
  explanation : Option String
deriving DecidableEq, Repr

/-- `response.model_dump()` for a tire-compound response. -/
def TireCompoundResponse.dump (r : TireCompoundResponse) : PredResult :=
  { session_id := some r.session_id, vehicle_id := some r.vehicle_id,
    lap := some r.lap, suggested_compound := some r.suggested_compound,
    confidence := some r.confidence, explanation := r.explanation }

/-- `AllPredictionsResponse` (schemas/prediction.py, lines 102-127). -/
structure AllPredictionsResponse where
  session_id : String
  vehicle_id : ℤ
  lap : ℤ
  lap_time : ℚ
  lap_time_confidence : ℚ
  pit_imminent : Bool
  pit_probability : ℚ
  tire_compound : String
  tire_confidence : ℚ
deriving DecidableEq, Repr

/-- `response.model_dump()` for a combined response. -/
def AllPredictionsResponse.dump (r : AllPredictionsResponse) : PredResult :=
  { session_id := some r.session_id, vehicle_id := some r.vehicle_id,
    lap := some r.lap, lap_time := some r.lap_time,
    lap_time_confidence := some r.lap_time_confidence,
    pit_imminent := some r.pit_imminent,
    pit_probability := some r.pit_probability,
    tire_compound := some r.tire_compound,
    tire_confidence := some r.tire_confidence }

/-- Route-level failure: `notFound` is the 404 on an unknown session id,
`badRequest` the 400 carrying the validation message, `serverError` the
generic 500 raised from the `except Exception` blocks. -/
inductive RouteError
| notFound
| badRequest (v : ValidationResult)
| serverError
deriving DecidableEq, Repr

namespace Routes

/-- `POST /predict/lap-time` (src/backend/app/api/routes.py, lines 114-190):
session-existence check (the session's `status` is never read), input
validation, preprocessing, prediction, then append of the logged record.
`expl` is the string returned by the total `ExplainAI.explain_prediction`
collaborator (opaque here). -/
def predict_lap_time (store : SessionStore) (eng : EngineState)
    (req : PredictionRequest) (expl : String) :
    Except RouteError (SessionStore × LapTimeResponse) :=
  if (lookupSession store req.session_id).isNone then .error .notFound
  else
    let d := req.model_dump
    match validate_input_data d NUMERIC_FEATURES with
    | .ok =>
        match preprocess_prediction_input eng d with
        | .error _ => .error .serverError
        | .ok Xmd =>
            match LapLens.predict_lap_time eng Xmd.1 with
            | .error _ => .error .serverError
            | .ok r =>
                let resp : LapTimeResponse :=
                  ⟨req.session_id, req.vehicle_id, req.lap, r.1, r.2, some expl⟩
                .ok (appendRecord store req.session_id ⟨.lap_time, resp.dump⟩, resp)
    | v => .error (.badRequest v)

/-- `POST /predict/pit` (routes.py, lines 193-256). -/
def predict_pit (store : SessionStore) (eng : EngineState)
    (req : PredictionRequest) (expl : String) :
    Except RouteError (SessionStore × PitImminentResponse) :=
  if (lookupSession store req.session_id).isNone then .error .notFound
  else
    let d := req.model_dump
    match validate_input_data d NUMERIC_FEATURES with
    | .ok =>
        match preprocess_prediction_input eng d with
        | .error _ => .error .serverError
        | .ok Xmd =>
            match LapLens.predict_pit_imminent eng Xmd.1 with
            | .error _ => .error .serverError
            | .ok r =>
                let resp : PitImminentResponse :=
                  ⟨req.session_id, req.vehicle_id, req.lap, r.1, r.2, some expl⟩
                .ok (appendRecord store req.session_id ⟨.pit_imminent, resp.dump⟩, resp)
    | v => .error (.badRequest v)

/-- `POST /predict/tire` (routes.py, lines 259-322). -/
def predict_tire (store : SessionStore) (eng : EngineState)
    (req : PredictionRequest) (expl : String) :
    Except RouteError (SessionStore × TireCompoundResponse) :=
  if (lookupSession store req.session_id).isNone then .error .notFound
  else
    let d := req.model_dump
    match validate_input_data d NUMERIC_FEATURES with
    | .ok =>
        match preprocess_prediction_input eng d with
        | .error _ => .error .serverError
        | .ok Xmd =>
            match LapLens.predict_tire_compound eng Xmd.1 with
            | .error _ => .error .serverError
            | .ok r =>
                let resp : TireCompoundResponse :=
                  ⟨req.session_id, req.vehicle_id, req.lap, r.1, r.2, some expl⟩
                .ok (appendRecord store req.session_id ⟨.tire_compound, resp.dump⟩, resp)
    | v => .error (.badRequest v)

/-- `POST /predict/all` (routes.py, lines 325-390). -/
def predict_all (store : SessionStore) (eng : EngineState)
    (req : PredictionRequest) :
    Except RouteError (SessionStore × AllPredictionsResponse) :=
  if (lookupSession store req.session_id).isNone then .error .notFound
  else
    let d := req.model_dump
    match validate_input_data d NUMERIC_FEATURES with
    | .ok =>
        match preprocess_prediction_input eng d with
        | .error _ => .error .serverError
        | .ok Xmd =>
            match LapLens.predict_all eng Xmd.1 with
            | .error _ => .error .serverError
            | .ok r =>
                let resp : AllPredictionsResponse :=
                  ⟨req.session_id, req.vehicle_id, req.lap, r.lap_time,
                   r.lap_time_confidence, r.pit_imminent, r.pit_probability,
                   r.tire_compound, r.tire_confidence⟩
                .ok (appendRecord store req.session_id ⟨.all, resp.dump⟩, resp)
    | v => .error (.badRequest v)

/-- `GET /session/{id}/predictions` (routes.py, lines 393-418): returns the
stored list (the route also reports its length and echoes the id). -/
def get_session_predictions (store : SessionStore) (id : String) :
    Except RouteError (List PredRecord) :=
  match lookupSession store id with
  | none => .error .notFound
  | some s => .ok s.predictions

/-- `POST /session/{id}/close` (routes.py, lines 421-450): sets
`session['status'] = 'closed'` and nothing else; the predictions list is
untouched.  The route's response echoes the updated session. -/
def close_session (store : SessionStore) (id : String) :
    Except RouteError (SessionStore × Session) :=
  match lookupSession store id with
  | none => .error .notFound
  | some s =>
      .ok (setStatus store id .closed, { s with status := .closed })

end Routes

/-! ### Derived views used to state the verified properties -/

/-- Whether the `pit_imminent` branch of `extractStep` emits its event for a
record processed with carried previous-flag `prev`: the record is a
pit-imminent record with truthy flag, probability above 0.7, and `prev`
false. -/
def pitEmit (prev : Bool) (p : PredRecord) : Bool :=
  (p.rtype == RecType.pit_imminent) && truthyB p.result.pit_imminent &&
  !prev && decide ((p.result.probability).getD 0 > 7/10)

/-- The carried previous pit-imminent flag after processing one record:
only pit-imminent records change it (set on emission, cleared by a falsy
flag, otherwise kept). -/
def pitNext (prev : Bool) (p : PredRecord) : Bool :=
  if p.rtype == RecType.pit_imminent then
    if pitEmit prev p then true
    else if !truthyB p.result.pit_imminent then false
    else prev
  else prev

/-- The per-record pit-emission trace of the extractor loop started with
previous-flag `prev`: entry `i` says whether record `i` emits the
"pit stop imminent" event. -/
def pitTrace (prev : Bool) : List PredRecord → List Bool
| [] => []
| p :: t => pitEmit prev p :: pitTrace (pitNext prev p) t

/-- A record that resets the carried pit flag: a `pit_imminent` record whose
flag is falsy. -/
def isPitReset (p : PredRecord) : Bool :=
  (p.rtype == RecType.pit_imminent) && !truthyB p.result.pit_imminent

/-- Whether an extracted event is the "pit stop imminent" event. -/
def isPitEvent (ev : RaceEvent) : Bool := ev.event == EventKind.pitStopImminent

/-- The four statistics accumulators that feed `total_laps`, `best_lap`,
`avg_lap_time` and `pit_stops` (everything except the `max_speeds` list). -/
def statsCore (a : StatsAcc) : List ℚ × PyInf × ℤ × ℕ :=
  (a.lap_times, a.best_lap, a.total_laps, a.pit_count)

/-- The behavior claimed of validation for absent fields: the failure names
only the FIRST missing required field in canonical order.  (The code's
`validate_input_data` instead reports the whole set of missing fields; this
definition exists to be compared against it.) -/
def claimedFirstMissingOnly (data : Dict) (required : List String) : Prop :=
  ∀ f, required.find? (fun g => (dictGet data g).isNone) = some f →
    validate_input_data data required = .missingError [f]

/-! ### Concrete inputs used by the verified properties -/

/-- The four-record lap-time log of the event-extraction test property:
predicted values [82.0, 81.3, 82.0, 83.2], confidences [0.9, 0.9, 0.3, 0.9],
at laps 1..4. -/
def c3Log : List PredRecord :=
  [⟨.lap_time, { lap := some 1, predicted_lap_time := some 82, confidence := some (9/10) }⟩,
   ⟨.lap_time, { lap := some 2, predicted_lap_time := some (813/10), confidence := some (9/10) }⟩,
   ⟨.lap_time, { lap := some 3, predicted_lap_time := some 82, confidence := some (3/10) }⟩,
   ⟨.lap_time, { lap := some 4, predicted_lap_time := some (832/10), confidence := some (9/10) }⟩]

/-- The three-record log of the summary-aggregation test property: lap-time
predictions [81.0, 79.5, 80.2] at laps [5, 12, 20]. -/
def c4Log : List PredRecord :=
  [⟨.lap_time, { lap := some 5, predicted_lap_time := some 81 }⟩,
   ⟨.lap_time, { lap := some 12, predicted_lap_time := some (795/10) }⟩,
   ⟨.lap_time, { lap := some 20, predicted_lap_time := some (802/10) }⟩]

/-- A pit-imminent record with the given flag and probability. -/
def pitRec (b : Bool) (pr : ℚ) : PredRecord :=
  ⟨.pit_imminent, { lap := some 1, pit_imminent := some b, probability := some pr }⟩

/-- Rising edge, falling edge, rising edge: the pit trace is
[true, false, true] with the reset in the middle. -/
def c7Log : List PredRecord := [pitRec true (9/10), pitRec false (9/10), pitRec true (9/10)]

/-- An engine with all three models present but the scaler artifact absent. -/
def engNoScaler : EngineState :=
  { lap_time_model := some ⟨fun _ => 82, none⟩,
    pit_imminent_model := some ⟨fun _ => true, fun _ => [3/10, 7/10]⟩,
    tire_compound_model := some ⟨fun _ => "SOFT", fun _ => [3/10, 7/10]⟩,
    scaler := none, feature_columns := none }

/-- An engine with all four artifacts present. -/
def engFull : EngineState :=
  { lap_time_model := some ⟨fun _ => 82, none⟩,
    pit_imminent_model := some ⟨fun _ => true, fun _ => [3/10, 7/10]⟩,
    tire_compound_model := some ⟨fun _ => "SOFT", fun _ => [3/10, 7/10]⟩,
    scaler := some ⟨List.replicate 23 0, List.replicate 23 1⟩,
    feature_columns := none }

/-- An engine with only the lap-time model present. -/
def engLapOnly : EngineState :=
  { lap_time_model := some ⟨fun _ => 82, none⟩,
    pit_imminent_model := none, tire_compound_model := none,
    scaler := none, feature_columns := none }

/-- A store holding one session, already closed, with an empty log. -/
def closedStore : SessionStore :=
  [("race_1", { session_id := "race_1", vehicle_id := 1, race_name := "Race 1",
                status := .closed, predictions := [] })]

/-- A fully populated telemetry request for session `race_1`: every canonical
feature beyond `vehicle_id` and `lap` is supplied. -/
def reqFull : PredictionRequest :=
  ⟨"race_1", 1, 5,
   [("max_speed", 300), ("avg_speed", 250), ("std_speed", 20), ("avg_throttle", 3/4),
    ("brake_front_freq", 12), ("brake_rear_freq", 8), ("dominant_gear", 6),
    ("avg_steer_angle", 5), ("avg_long_accel", 2), ("avg_lat_accel", 3),
    ("avg_rpm", 11000), ("rolling_std_lap_time", 1/2), ("lap_time_delta", 3/10),
    ("tire_wear_high", 9/20), ("air_temp", 25), ("track_temp", 45), ("humidity", 60),
    ("pressure", 1013), ("wind_speed", 5), ("wind_direction", 90), ("rain", 0)]⟩

/-! ## Supporting lemmas -/

lemma truthyQ_some_ne {q : ℚ} (h : q ≠ 0) : truthyQ (some q) = true := by
  simp [truthyQ, h]

lemma truthyQ_some_zero : truthyQ (some 0) = false := by
  simp [truthyQ]

lemma statsStep_pit_count (a : StatsAcc) (p : PredRecord) :
    (statsStep a p).pit_count =
      a.pit_count + (if p.rtype = .tire_compound then 1 else 0) := by
  obtain ⟨t, r⟩ := p
  cases t <;> cases hms : r.max_speed <;> simp [statsStep, hms] <;>
    (split <;> rfl)

lemma statsStep_lap_fields (a : StatsAcc) (p : PredRecord)
    (h : p.rtype ≠ .lap_time ∨ truthyQ p.result.predicted_lap_time = false) :
    (statsStep a p).lap_times = a.lap_times ∧
    (statsStep a p).best_lap = a.best_lap ∧
    (statsStep a p).total_laps = a.total_laps := by
  obtain ⟨t, r⟩ := p
  cases t with
  | lap_time =>
      have h' : truthyQ r.predicted_lap_time = false := by
        rcases h with h | h
        · exact absurd rfl h
        · exact h
      cases hms : r.max_speed <;> simp [statsStep, h', hms]
  | pit_imminent => cases hms : r.max_speed <;> simp [statsStep, hms]
  | tire_compound => cases hms : r.max_speed <;> simp [statsStep, hms]
  | all => cases hms : r.max_speed <;> simp [statsStep, hms]

lemma foldl_pit_count (l : List PredRecord) (a : StatsAcc) :
    (l.foldl statsStep a).pit_count =
      a.pit_count + l.countP (fun p => p.rtype == RecType.tire_compound) := by
  induction l generalizing a with
  | nil => simp
  | cons p t ih =>
      rw [List.foldl_cons, ih, List.countP_cons, statsStep_pit_count]
      by_cases hp : p.rtype = .tire_compound <;> simp [hp] <;> omega

lemma foldl_no_lap (l : List PredRecord) (a : StatsAcc)
    (h : ∀ p ∈ l, p.rtype ≠ RecType.lap_time) :
    (l.foldl statsStep a).lap_times = a.lap_times ∧
    (l.foldl statsStep a).best_lap = a.best_lap := by
  induction l generalizing a with
  | nil => exact ⟨rfl, rfl⟩
  | cons p t ih =>
      have hp := h p (List.mem_cons_self p t)
      have hstep := statsStep_lap_fields a p (Or.inl hp)
      have ht := ih (statsStep a p) (fun q hq => h q (List.mem_cons_of_mem p hq))
      rw [List.foldl_cons]
      exact ⟨ht.1.trans hstep.1, ht.2.trans hstep.2.1⟩

lemma extractStep_all (s : ExtractState) (p : PredRecord) (h : p.rtype = .all) :
    extractStep s p = (s, []) := by
  obtain ⟨t, r⟩ := p
  cases h
  rfl

lemma extractAux_filter_all (l : List PredRecord) :
    ∀ s, extractAux s (l.filter (fun p => p.rtype != RecType.all)) = extractAux s l := by
  induction l with
  | nil => intro s; rfl
  | cons p t ih =>
      intro s
      by_cases hp : p.rtype = .all
      · rw [List.filter_cons]
        simp only [hp, bne_self_eq_false, Bool.false_eq_true, if_false]
        rw [ih s]
        have hs := extractStep_all s p hp
        simp [extractAux, hs]
      · rw [List.filter_cons]
        have : (p.rtype != RecType.all) = true := by simp [bne, hp]
        simp only [this, if_true]
        simp only [extractAux]
        rw [ih]

lemma statsCore_eq_iff {a a' : StatsAcc} :
    statsCore a = statsCore a' ↔
      a.lap_times = a'.lap_times ∧ a.best_lap = a'.best_lap ∧
      a.total_laps = a'.total_laps ∧ a.pit_count = a'.pit_count := by
  simp [statsCore, Prod.ext_iff]

lemma statsStep_core_congr (p : PredRecord) {a a' : StatsAcc}
    (h : statsCore a = statsCore a') :
    statsCore (statsStep a p) = statsCore (statsStep a' p) := by
  rw [statsCore_eq_iff] at h ⊢
  obtain ⟨h1, h2, h3, h4⟩ := h
  obtain ⟨t, r⟩ := p
  cases t with
  | lap_time =>
      by_cases htr : truthyQ r.predicted_lap_time = true <;>
        cases hms : r.max_speed <;> simp [statsStep, hms, htr, h1, h2, h3, h4]
  | pit_imminent => cases hms : r.max_speed <;> simp [statsStep, hms, h1, h2, h3, h4]
  | tire_compound => cases hms : r.max_speed <;> simp [statsStep, hms, h1, h2, h3, h4]
  | all => cases hms : r.max_speed <;> simp [statsStep, hms, h1, h2, h3, h4]

lemma statsStep_all_core (p : PredRecord) (h : p.rtype = .all) (a : StatsAcc) :
    statsCore (statsStep a p) = statsCore a := by
  obtain ⟨t, r⟩ := p
  cases h
  cases hms : r.max_speed <;> simp [statsStep, statsCore, hms]

lemma foldl_core_filter_all (l : List PredRecord) :
    ∀ a a', statsCore a = statsCore a' →
      statsCore ((l.filter (fun p => p.rtype != RecType.all)).foldl statsStep a) =
        statsCore (l.foldl statsStep a') := by
  induction l with
  | nil => intro a a' h; exact h
  | cons p t ih =>
      intro a a' h
      by_cases hp : p.rtype = .all
      · rw [List.filter_cons]
        simp only [hp, bne_self_eq_false, Bool.false_eq_true, if_false, List.foldl_cons]
        exact ih a (statsStep a' p) (h.trans (statsStep_all_core p hp a').symm)
      · rw [List.filter_cons]
        have : (p.rtype != RecType.all) = true := by simp [bne, hp]
        simp only [this, if_true, List.foldl_cons]
        exact ih (statsStep a p) (statsStep a' p) (statsStep_core_congr p h)

lemma extractStep_pit_count (s : ExtractState) (p : PredRecord) :
    (extractStep s p).2.countP isPitEvent =
      (if pitEmit s.prev_pit_imminent p then 1 else 0) ∧
    (extractStep s p).1.prev_pit_imminent = pitNext s.prev_pit_imminent p := by
  obtain ⟨t, r⟩ := p
  cases t with
  | lap_time =>
      refine ⟨?_, by simp [extractStep, pitNext]⟩
      have h0 : pitEmit s.prev_pit_imminent ⟨RecType.lap_time, r⟩ = false := by
        simp [pitEmit]
      simp only [h0, Bool.false_eq_true, if_false]
      rw [List.countP_eq_zero]
      intro a ha
      simp only [extractStep] at ha
      split at ha
      · split at ha
        · simp only [List.mem_singleton] at ha
          simp [isPitEvent, ha]
        · split at ha
          · simp only [List.mem_singleton] at ha
            simp [isPitEvent, ha]
          · split at ha
            · simp only [List.mem_singleton] at ha
              simp [isPitEvent, ha]
            · simp at ha
      · simp at ha
  | pit_imminent =>
      by_cases h1 : truthyB r.pit_imminent <;>
        by_cases h2 : s.prev_pit_imminent <;>
          by_cases h3 : (r.probability.getD 0 > 7/10) <;>
            simp [extractStep, pitEmit, pitNext, isPitEvent, h1, h2, h3]
  | tire_compound => simp [extractStep, pitEmit, pitNext, isPitEvent]
  | all => simp [extractStep, pitEmit, pitNext, isPitEvent]

lemma pitTrace_length (prev : Bool) (l : List PredRecord) :
    (pitTrace prev l).length = l.length := by
  induction l generalizing prev with
  | nil => rfl
  | cons p t ih => simp [pitTrace, ih]

lemma pitEmit_true_eq_false (p : PredRecord) : pitEmit true p = false := by
  simp [pitEmit]

lemma pitNext_true_of_not_reset (p : PredRecord) (h : isPitReset p = false) :
    pitNext true p = true := by
  by_cases hr : (p.rtype == RecType.pit_imminent) = true
  · have ht : truthyB p.result.pit_imminent = true := by
      simpa [isPitReset, hr] using h
    simp [pitNext, hr, pitEmit_true_eq_false, ht]
  · simp [pitNext, hr]

lemma pitNext_of_emit {b : Bool} {p : PredRecord} (h : pitEmit b p = true) :
    pitNext b p = true := by
  have hr : (p.rtype == RecType.pit_imminent) = true := by
    simp only [pitEmit, Bool.and_eq_true] at h
    exact h.1.1.1
  simp [pitNext, hr, h]

lemma pit_no_emit_until_reset (l : List PredRecord) :
    ∀ i : ℕ, (pitTrace true l).get? i = some true →
      ∃ k, k < i ∧ ∃ p, l.get? k = some p ∧ isPitReset p = true := by
  induction l with
  | nil => intro i h; simp [pitTrace] at h
  | cons p t ih =>
      intro i h
      match i with
      | 0 =>
          have hh : pitEmit true p = true := by
            simpa [pitTrace] using h
          rw [pitEmit_true_eq_false] at hh
          exact absurd hh (by simp)
      | Nat.succ i' =>
          by_cases hr : isPitReset p = true
          · exact ⟨0, Nat.succ_pos i', p, rfl, hr⟩
          · have hn : pitNext true p = true :=
              pitNext_true_of_not_reset p (by simpa using hr)
            have h' : (pitTrace true t).get? i' = some true := by
              have h2 : (pitTrace (pitNext true p) t).get? i' = some true := by
                simpa [pitTrace] using h
              rwa [hn] at h2
            obtain ⟨k, hk1, q, hq1, hq2⟩ := ih i' h'
            exact ⟨k + 1, Nat.succ_lt_succ hk1, q, by simpa using hq1, hq2⟩

lemma pit_events_separated (l : List PredRecord) :
    ∀ (b : Bool) (i j : ℕ), i < j →
      (pitTrace b l).get? i = some true → (pitTrace b l).get? j = some true →
      ∃ k, i < k ∧ k < j ∧ ∃ p, l.get? k = some p ∧ isPitReset p = true := by
  induction l with
  | nil => intro b i j hij hgi; simp [pitTrace] at hgi
  | cons p t ih =>
      intro b i j hij hgi hgj
      match i, j with
      | _, 0 => omega
      | 0, Nat.succ j' =>
          have hemit : pitEmit b p = true := by
            simpa [pitTrace] using hgi
          have hgj' : (pitTrace true t).get? j' = some true := by
            have h2 : (pitTrace (pitNext b p) t).get? j' = some true := by
              simpa [pitTrace] using hgj
            rwa [pitNext_of_emit hemit] at h2
          obtain ⟨k, hk1, q, hq1, hq2⟩ := pit_no_emit_until_reset t j' hgj'
          exact ⟨k + 1, Nat.succ_pos k, Nat.succ_lt_succ hk1, q, by simpa using hq1, hq2⟩
      | Nat.succ i', Nat.succ j' =>
          have hgi' : (pitTrace (pitNext b p) t).get? i' = some true := by
            simpa [pitTrace] using hgi
          have hgj' : (pitTrace (pitNext b p) t).get? j' = some true := by
            simpa [pitTrace] using hgj
          obtain ⟨k, hk1, hk2, q, hq1, hq2⟩ :=
            ih (pitNext b p) i' j' (Nat.lt_of_succ_lt_succ hij) hgi' hgj'
          exact ⟨k + 1, Nat.succ_lt_succ hk1, Nat.succ_lt_succ hk2, q,
            by simpa using hq1, hq2⟩

lemma extractAux_pit_countP (l : List PredRecord) :
    ∀ s : ExtractState,
      (extractAux s l).countP isPitEvent =
        (pitTrace s.prev_pit_imminent l).count true := by
  induction l with
  | nil => intro s; rfl
  | cons p t ih =>
      intro s
      have hstep := extractStep_pit_count s p
      simp only [extractAux, List.countP_append]
      rw [hstep.1, ih (extractStep s p).1]
      rw [hstep.2]
      rw [show pitTrace s.prev_pit_imminent (p :: t) =
            pitEmit s.prev_pit_imminent p ::
              pitTrace (pitNext s.prev_pit_imminent p) t from rfl]
      rw [List.count_cons]
      by_cases he : pitEmit s.prev_pit_imminent p <;> simp [he] <;> omega

lemma foldl_max_le_init (t : List ℚ) (acc : ℚ) : acc ≤ t.foldl max acc := by
  induction t generalizing acc with
  | nil => exact le_refl acc
  | cons h tl ih => exact le_trans (le_max_left acc h) (ih (max acc h))

lemma foldl_max_le_of_mem (t : List ℚ) (acc x : ℚ) (hx : x ∈ t) :
    x ≤ t.foldl max acc := by
  induction t generalizing acc with
  | nil => simp at hx
  | cons h tl ih =>
      rcases List.mem_cons.mp hx with hx | hx
      · subst hx
        exact le_trans (le_max_right acc x) (foldl_max_le_init tl (max acc x))
      · exact ih (max acc h) hx

lemma foldl_max_mem (t : List ℚ) (acc : ℚ) :
    t.foldl max acc = acc ∨ t.foldl max acc ∈ t := by
  induction t generalizing acc with
  | nil => exact Or.inl rfl
  | cons h tl ih =>
      rw [List.foldl_cons]
      rcases ih (max acc h) with h1 | h1
      · rcases max_choice acc h with h2 | h2
        · exact Or.inl (h1.trans h2)
        · exact Or.inr (by rw [h1, h2]; exact List.mem_cons_self h tl)
      · exact Or.inr (List.mem_cons_of_mem h h1)

lemma pyMax_spec {l : List ℚ} {m : ℚ} (h : pyMax l = some m) :
    m ∈ l ∧ ∀ x ∈ l, x ≤ m := by
  cases l with
  | nil => simp [pyMax] at h
  | cons a t =>
      have hm : m = t.foldl max a := by
        simpa [pyMax] using h.symm
      subst hm
      constructor
      · rcases foldl_max_mem t a with h1 | h1
        · rw [h1]; exact List.mem_cons_self a t
        · exact List.mem_cons_of_mem a h1
      · intro x hx
        rcases List.mem_cons.mp hx with hx | hx
        · subst hx; exact foldl_max_le_init t x
        · exact foldl_max_le_of_mem t a x hx

lemma estimateConfidence_bounds (m : RegressorModel)
    (h : ∀ q ∈ m.featureImportances.getD [], 0 ≤ q) :
    0 ≤ estimateConfidence m ∧ estimateConfidence m ≤ 1 := by
  rcases him : m.featureImportances with _ | imps
  · simp only [estimateConfidence, him]
    exact ⟨le_min (by norm_num) (by norm_num), min_le_right _ _⟩
  · rcases hmx : pyMax imps with _ | mx
    · simp only [estimateConfidence, him, hmx]
      norm_num
    · have hmem := (pyMax_spec hmx).1
      have h0 : 0 ≤ mx := h mx (by rw [him]; exact hmem)
      simp only [estimateConfidence, him, hmx]
      exact ⟨le_min (by linarith) (by norm_num), min_le_right _ _⟩

lemma filter_lookup_congr (required : List String) (data data' : Dict)
    (h : ∀ f ∈ required, dictGet data' f = dictGet data f)
    (κ : Option PyVal → Bool) :
    required.filter (fun g => κ (dictGet data' g)) =
      required.filter (fun g => κ (dictGet data g)) := by
  induction required with
  | nil => rfl
  | cons f t ih =>
      rw [List.filter_cons, List.filter_cons, h f (List.mem_cons_self f t),
        ih (fun g hg => h g (List.mem_cons_of_mem f hg))]

lemma find?_lookup_congr (required : List String) (data data' : Dict)
    (h : ∀ f ∈ required, dictGet data' f = dictGet data f)
    (κ : Option PyVal → Bool) :
    required.find? (fun g => κ (dictGet data' g)) =
      required.find? (fun g => κ (dictGet data g)) := by
  induction required with
  | nil => rfl
  | cons f t ih =>
      rw [List.find?_cons, List.find?_cons, h f (List.mem_cons_self f t)]
      cases κ (dictGet data f)
      · exact ih (fun g hg => h g (List.mem_cons_of_mem f hg))
      · rfl

lemma extractFeatures_congr (features : List String) (data data' : Dict)
    (h : ∀ f ∈ features, dictGet data' f = dictGet data f) :
    extractFeatures data' features = extractFeatures data features := by
  induction features with
  | nil => rfl
  | cons f t ih =>
      simp only [extractFeatures, h f (List.mem_cons_self f t),
        ih (fun g hg => h g (List.mem_cons_of_mem f hg))]

lemma filter_isNone_eq_nil (required : List String) (data : Dict)
    (hall : ∀ g ∈ required, (dictGet data g).isSome = true) :
    required.filter (fun g => (dictGet data g).isNone) = [] := by
  rw [List.filter_eq_nil_iff]
  intro g hg
  rcases Option.isSome_iff_exists.mp (hall g hg) with ⟨v, hv⟩
  simp [hv]

lemma lookupSession_setStatus (st : SessionStore) (id : String) (c : SessionStatus)
    (id2 : String) :
    lookupSession (setStatus st id c) id2 =
      if id2 = id then (lookupSession st id2).map (fun s => { s with status := c })
      else lookupSession st id2 := by
  induction st with
  | nil =>
      simp only [setStatus, updateSession, List.map_nil, lookupSession]
      split <;> rfl
  | cons kv t ih =>
      obtain ⟨k, s⟩ := kv
      simp only [setStatus, updateSession, List.map_cons] at ih ⊢
      by_cases hk : k = id
      · rw [if_pos hk]
        by_cases hk2 : k = id2
        · subst hk2
          subst hk
          simp [lookupSession]
        · simp only [lookupSession, hk2, if_false, ite_false]
          exact ih
      · rw [if_neg hk]
        by_cases hk2 : k = id2
        · subst hk2
          have h2 : ¬ k = id := hk
          simp [lookupSession, h2]
        · simp only [lookupSession, hk2, if_false, ite_false]
          exact ih

lemma lookupSession_setStatus_isNone (st : SessionStore) (id : String)
    (c : SessionStatus) (id2 : String) :
    (lookupSession (setStatus st id c) id2).isNone = (lookupSession st id2).isNone := by
  rw [lookupSession_setStatus]
  split
  · cases lookupSession st id2 <;> rfl
  · rfl

lemma lookupSession_setStatus_predictions (st : SessionStore) (id : String)
    (c : SessionStatus) (id2 : String) :
    (lookupSession (setStatus st id c) id2).map Session.predictions =
      (lookupSession st id2).map Session.predictions := by
  rw [lookupSession_setStatus]
  split
  · cases lookupSession st id2 <;> rfl
  · rfl

lemma appendRecord_setStatus (st : SessionStore) (id : String) (c : SessionStatus)
    (id2 : String) (rec : PredRecord) :
    appendRecord (setStatus st id c) id2 rec =
      setStatus (appendRecord st id2 rec) id c := by
  simp only [appendRecord, setStatus, updateSession, List.map_map]
  apply List.map_congr_left
  intro kv _
  obtain ⟨k, s⟩ := kv
  by_cases hk : k = id
  · subst hk
    by_cases hk2 : k = id2
    · subst hk2
      simp
    · simp [hk2]
  · by_cases hk2 : k = id2
    · subst hk2
      simp [hk]
    · simp [hk, hk2]

lemma get_session_predictions_setStatus (st : SessionStore) (id : String)
    (c : SessionStatus) (id2 : String) :
    Routes.get_session_predictions (setStatus st id c) id2 =
      Routes.get_session_predictions st id2 := by
  simp only [Routes.get_session_predictions, lookupSession_setStatus]
  by_cases h : id2 = id
  · rw [if_pos h]
    cases lookupSession st id2 <;> rfl
  · rw [if_neg h]

lemma predict_lap_time_setStatus (st : SessionStore) (id : String) (c : SessionStatus)
    (eng : EngineState) (req : PredictionRequest) (expl : String) :
    Routes.predict_lap_time (setStatus st id c) eng req expl =
      (Routes.predict_lap_time st eng req expl).map
        (fun p => (setStatus p.1 id c, p.2)) := by
  simp only [Routes.predict_lap_time, lookupSession_setStatus_isNone]
  by_cases hn : (lookupSession st req.session_id).isNone = true
  · simp [hn, Except.map]
  · have hn' : (lookupSession st req.session_id).isNone = false := by
      revert hn
      cases (lookupSession st req.session_id).isNone <;> simp
    simp only [hn', Bool.false_eq_true, if_false]
    rcases hv : validate_input_data req.model_dump NUMERIC_FEATURES with _ | miss | f
    · rcases hpp : preprocess_prediction_input eng req.model_dump with er | Xmd
      · simp [hpp, Except.map]
      · rcases hpl : predict_lap_time eng Xmd.1 with er | r
        · simp [hpp, hpl, Except.map]
        · simp [hpp, hpl, appendRecord_setStatus, Except.map]
    · simp [Except.map]
    · simp [Except.map]

lemma predict_pit_setStatus (st : SessionStore) (id : String) (c : SessionStatus)
    (eng : EngineState) (req : PredictionRequest) (expl : String) :
    Routes.predict_pit (setStatus st id c) eng req expl =
      (Routes.predict_pit st eng req expl).map
        (fun p => (setStatus p.1 id c, p.2)) := by
  simp only [Routes.predict_pit, lookupSession_setStatus_isNone]
  by_cases hn : (lookupSession st req.session_id).isNone = true
  · simp [hn, Except.map]
  · have hn' : (lookupSession st req.session_id).isNone = false := by
      revert hn
      cases (lookupSession st req.session_id).isNone <;> simp
    simp only [hn', Bool.false_eq_true, if_false]
    rcases hv : validate_input_data req.model_dump NUMERIC_FEATURES with _ | miss | f
    · rcases hpp : preprocess_prediction_input eng req.model_dump with er | Xmd
      · simp [hpp, Except.map]
      · rcases hpl : predict_pit_imminent eng Xmd.1 with er | r
        · simp [hpp, hpl, Except.map]
        · simp [hpp, hpl, appendRecord_setStatus, Except.map]
    · simp [Except.map]
    · simp [Except.map]

lemma predict_tire_setStatus (st : SessionStore) (id : String) (c : SessionStatus)
    (eng : EngineState) (req : PredictionRequest) (expl : String) :
    Routes.predict_tire (setStatus st id c) eng req expl =
      (Routes.predict_tire st eng req expl).map
        (fun p => (setStatus p.1 id c, p.2)) := by
  simp only [Routes.predict_tire, lookupSession_setStatus_isNone]
  by_cases hn : (lookupSession st req.session_id).isNone = true
  · simp [hn, Except.map]
  · have hn' : (lookupSession st req.session_id).isNone = false := by
      revert hn
      cases (lookupSession st req.session_id).isNone <;> simp
    simp only [hn', Bool.false_eq_true, if_false]
    rcases hv : validate_input_data req.model_dump NUMERIC_FEATURES with _ | miss | f
    · rcases hpp : preprocess_prediction_input eng req.model_dump with er | Xmd
      · simp [hpp, Except.map]
      · rcases hpl : predict_tire_compound eng Xmd.1 with er | r
        · simp [hpp, hpl, Except.map]
        · simp [hpp, hpl, appendRecord_setStatus, Except.map]
    · simp [Except.map]
    · simp [Except.map]

lemma predict_all_setStatus (st : SessionStore) (id : String) (c : SessionStatus)
    (eng : EngineState) (req : PredictionRequest) :
    Routes.predict_all (setStatus st id c) eng req =
      (Routes.predict_all st eng req).map
        (fun p => (setStatus p.1 id c, p.2)) := by
  simp only [Routes.predict_all, lookupSession_setStatus_isNone]
  by_cases hn : (lookupSession st req.session_id).isNone = true
  · simp [hn, Except.map]
  · have hn' : (lookupSession st req.session_id).isNone = false := by
      revert hn
      cases (lookupSession st req.session_id).isNone <;> simp
    simp only [hn', Bool.false_eq_true, if_false]
    rcases hv : validate_input_data req.model_dump NUMERIC_FEATURES with _ | miss | f
    · rcases hpp : preprocess_prediction_input eng req.model_dump with er | Xmd
      · simp [hpp, Except.map]
      · rcases hpl : predict_all eng Xmd.1 with er | r
        · simp [hpp, hpl, Except.map]
        · simp [hpp, hpl, appendRecord_setStatus, Except.map]
    · simp [Except.map]
    · simp [Except.map]

/-! ## Claims -/

/-- Claim C3: on the log with lap-time values [82.0, 81.3, 82.0, 83.2] and
confidences [0.9, 0.9, 0.3, 0.9], `extract_race_events` emits exactly a pace
improvement at the second record, a traffic/inconsistency event at the third
and a tire-degradation event at the fourth, in that order; each lap-time
record emits at most one event, chosen by the priority order delta < −0.5,
then delta > 1.0, then confidence < 0.4; and the previous-lap-time
accumulator is updated to the record's value whether or not an event fired. -/
theorem C3_event_priority_and_trace :
    extract_race_events c3Log =
      [⟨some 2, .paceImprovement (-(7/10))⟩, ⟨some 3, .trafficIncident⟩,
       ⟨some 4, .tireDegradation (12/10)⟩] ∧
    (∀ (s : ExtractState) (p : PredRecord), p.rtype = .lap_time →
      (extractStep s p).2.length ≤ 1 ∧
      (extractStep s p).1.prev_lap_time = p.result.predicted_lap_time) ∧
    (∀ (s : ExtractState) (p : PredRecord) (prev lt : ℚ), p.rtype = .lap_time →
      s.prev_lap_time = some prev → prev ≠ 0 →
      p.result.predicted_lap_time = some lt → lt ≠ 0 →
      ((lt - prev < -(1/2) →
          (extractStep s p).2 = [⟨p.result.lap, .paceImprovement (lt - prev)⟩]) ∧
       (¬ lt - prev < -(1/2) → lt - prev > 1 →
          (extractStep s p).2 = [⟨p.result.lap, .tireDegradation (lt - prev)⟩]) ∧
       (¬ lt - prev < -(1/2) → ¬ lt - prev > 1 → (p.result.confidence).getD 0 < 2/5 →
          (extractStep s p).2 = [⟨p.result.lap, .trafficIncident⟩]) ∧
       (¬ lt - prev < -(1/2) → ¬ lt - prev > 1 → ¬ (p.result.confidence).getD 0 < 2/5 →
          (extractStep s p).2 = []))) := by
  refine ⟨?_, ?_, ?_⟩
  · norm_num [extract_race_events, extractAux, extractStep, truthyQ, c3Log]
  · rintro s ⟨t, r⟩ hp
    cases hp
    refine ⟨?_, rfl⟩
    simp only [extractStep]
    split
    · split
      · simp
      · split
        · simp
        · split <;> simp
    · simp
  · rintro s ⟨t, r⟩ prev lt hp hs hprev hlt hlt0
    cases hp
    have hlt' : r.predicted_lap_time = some lt := hlt
    have h1 : truthyQ (some prev) = true := truthyQ_some_ne hprev
    have h2 : truthyQ (some lt) = true := truthyQ_some_ne hlt0
    simp only [extractStep, hs, hlt', h1, h2, Bool.and_self, eq_self_iff_true,
      if_true, Option.getD_some]
    refine ⟨fun hd => by rw [if_pos hd], fun hd1 hd2 => ?_, fun hd1 hd2 hc => ?_,
      fun hd1 hd2 hc => ?_⟩
    · rw [if_neg hd1, if_pos hd2]
    · rw [if_neg hd1, if_neg hd2, if_pos hc]
    · rw [if_neg hd1, if_neg hd2, if_neg hc]

/-- Witness for C3: the theorem applied at the second record of the log
(previous value 82.0, current 81.3): the improvement branch fires. -/
theorem C3_witness :
    (extractStep ⟨some 82, false⟩
       ⟨.lap_time, { lap := some 2, predicted_lap_time := some (813/10),
                     confidence := some (9/10) }⟩).2 =
      [⟨some 2, .paceImprovement (813/10 - 82)⟩] :=
  (C3_event_priority_and_trace.2.2 ⟨some 82, false⟩
      ⟨.lap_time, { lap := some 2, predicted_lap_time := some (813/10),
                    confidence := some (9/10) }⟩ 82 (813/10)
      rfl rfl (by norm_num) rfl (by norm_num)).1 (by norm_num)

/-- Claim C4: on the log with lap-time predictions [81.0, 79.5, 80.2] at
laps [5, 12, 20], `calculate_summary_stats` returns best_lap = 79.5,
avg_lap_time = 80.233 (mean rounded to 3 decimals) and total_laps = 20 (the
max lap number, not a record count); on any log with no lap_time record the
best lap stays +infinity; and pit_stops is the count of tire_compound
records. -/
theorem C4_summary_aggregation :
    calculate_summary_stats c4Log =
      { total_laps := 20, best_lap := .fin (795/10), avg_lap_time := 80233/1000,
        pit_stops := 0, max_speed := 0 } ∧
    (∀ l : List PredRecord, (∀ p ∈ l, p.rtype ≠ .lap_time) →
       (calculate_summary_stats l).best_lap = .inf) ∧
    (∀ l : List PredRecord,
       (calculate_summary_stats l).pit_stops =
         l.countP (fun p => p.rtype == RecType.tire_compound)) := by
  refine ⟨?_, ?_, ?_⟩
  · norm_num [calculate_summary_stats, statsStep, truthyQ, c4Log, pyInfMin,
      pyInfRound3, pyRound, pyMax, List.foldl, List.cons_ne_nil]
  · intro l h
    have hf := foldl_no_lap l ⟨[], .inf, 0, 0, []⟩ h
    simp only [calculate_summary_stats, hf.1, hf.2, ne_eq, not_true_eq_false,
      if_false]
  · intro l
    have hf := foldl_pit_count l ⟨[], .inf, 0, 0, []⟩
    simpa [calculate_summary_stats] using hf

/-- Witness for C4: the theorem applied to a log holding a single
tire-compound record: the best lap stays +infinity and the pit-stop count
matches the tire-record count. -/
theorem C4_witness :
    (calculate_summary_stats [⟨.tire_compound, {}⟩]).best_lap = .inf ∧
    (calculate_summary_stats [⟨.tire_compound, {}⟩]).pit_stops =
      [(⟨.tire_compound, {}⟩ : PredRecord)].countP
        (fun p => p.rtype == RecType.tire_compound) :=
  ⟨C4_summary_aggregation.2.1 [⟨.tire_compound, {}⟩] (by simp),
   C4_summary_aggregation.2.2 [⟨.tire_compound, {}⟩]⟩

/-- Claim C10: a lap_time record whose predicted value is 0.0 is treated as
absent data: it emits no pace event and becomes the (falsy) carried previous
value, which suppresses the delta comparison at the next lap_time record;
and in the statistics pass it contributes to none of the lap accumulators
(lap_times / best_lap / total_laps). -/
theorem C10_zero_lap_time_is_absent :
    (∀ (s : ExtractState) (p : PredRecord), p.rtype = .lap_time →
       p.result.predicted_lap_time = some 0 →
       (extractStep s p).2 = [] ∧ (extractStep s p).1.prev_lap_time = some 0) ∧
    (∀ (s : ExtractState) (p : PredRecord), p.rtype = .lap_time →
       s.prev_lap_time = some 0 →
       (extractStep s p).2 = [] ∧
       (extractStep s p).1.prev_lap_time = p.result.predicted_lap_time) ∧
    (∀ (a : StatsAcc) (p : PredRecord), p.rtype = .lap_time →
       p.result.predicted_lap_time = some 0 →
       (statsStep a p).lap_times = a.lap_times ∧
       (statsStep a p).best_lap = a.best_lap ∧
       (statsStep a p).total_laps = a.total_laps) := by
  refine ⟨?_, ?_, ?_⟩
  · rintro s ⟨t, r⟩ hp h0
    cases hp
    have h0' : r.predicted_lap_time = some 0 := h0
    simp [extractStep, h0', truthyQ_some_zero]
  · rintro s ⟨t, r⟩ hp h0
    cases hp
    simp [extractStep, h0, truthyQ_some_zero]
  · rintro a ⟨t, r⟩ hp h0
    cases hp
    exact statsStep_lap_fields a ⟨.lap_time, r⟩ (Or.inr (by rw [h0]; exact truthyQ_some_zero))

/-- Witness for C10: the theorem applied to a concrete zero-valued lap
record (previous value 81.0) and to the following record (previous value
0.0): no event in either step, the accumulators untouched. -/
theorem C10_witness :
    (extractStep ⟨some 81, false⟩
       ⟨.lap_time, { lap := some 7, predicted_lap_time := some 0 }⟩).2 = [] ∧
    (extractStep ⟨some 0, false⟩
       ⟨.lap_time, { lap := some 8, predicted_lap_time := some 90 }⟩).2 = [] ∧
    (statsStep ⟨[], .inf, 0, 0, []⟩
       ⟨.lap_time, { lap := some 7, predicted_lap_time := some 0 }⟩).lap_times = [] :=
  ⟨(C10_zero_lap_time_is_absent.1 ⟨some 81, false⟩
      ⟨.lap_time, { lap := some 7, predicted_lap_time := some 0 }⟩ rfl rfl).1,
   (C10_zero_lap_time_is_absent.2.1 ⟨some 0, false⟩
      ⟨.lap_time, { lap := some 8, predicted_lap_time := some 90 }⟩ rfl rfl).1,
   (C10_zero_lap_time_is_absent.2.2 ⟨[], .inf, 0, 0, []⟩
      ⟨.lap_time, { lap := some 7, predicted_lap_time := some 0 }⟩ rfl rfl).1⟩

/-- Claim C9: records of type `all` (appended by the combined prediction
route) contribute nothing to either pipeline stage: removing every
`all`-type record from a log changes neither the extracted event list nor
the `total_laps`, `best_lap`, `avg_lap_time` and `pit_stops` statistics. -/
theorem C9_all_records_inert (l : List PredRecord) :
    extract_race_events l =
      extract_race_events (l.filter (fun p => p.rtype != RecType.all)) ∧
    (calculate_summary_stats l).total_laps =
      (calculate_summary_stats (l.filter (fun p => p.rtype != RecType.all))).total_laps ∧
    (calculate_summary_stats l).best_lap =
      (calculate_summary_stats (l.filter (fun p => p.rtype != RecType.all))).best_lap ∧
    (calculate_summary_stats l).avg_lap_time =
      (calculate_summary_stats (l.filter (fun p => p.rtype != RecType.all))).avg_lap_time ∧
    (calculate_summary_stats l).pit_stops =
      (calculate_summary_stats (l.filter (fun p => p.rtype != RecType.all))).pit_stops := by
  refine ⟨(extractAux_filter_all l ⟨none, false⟩).symm, ?_⟩
  have hc := foldl_core_filter_all l ⟨[], .inf, 0, 0, []⟩ ⟨[], .inf, 0, 0, []⟩ rfl
  rw [statsCore_eq_iff] at hc
  obtain ⟨h1, h2, h3, h4⟩ := hc
  simp only [calculate_summary_stats]
  rw [h1, h2, h3, h4]
  exact ⟨rfl, rfl, rfl, rfl⟩

/-- Claim C7: the "pit stop imminent" event is emitted at a pit_imminent
record exactly when its flag is truthy, its probability exceeds 0.7, and the
carried previous-flag is false; the previous-flag becomes true (from false)
exactly when the event fires and is reset to false by any record whose flag
is falsy; the events emitted by the extractor match the per-record emission
trace; and two emissions never happen without an intervening falsy-flag
pit record. -/
theorem C7_pit_rising_edge :
    (∀ (s : ExtractState) (p : PredRecord), p.rtype = .pit_imminent →
       ((extractStep s p).2.countP isPitEvent = 1 ↔
         (truthyB p.result.pit_imminent = true ∧
          (p.result.probability).getD 0 > 7/10 ∧ s.prev_pit_imminent = false))) ∧
    (∀ (s : ExtractState) (p : PredRecord), p.rtype = .pit_imminent →
       s.prev_pit_imminent = false →
       ((extractStep s p).1.prev_pit_imminent = true ↔
         (extractStep s p).2.countP isPitEvent = 1)) ∧
    (∀ (s : ExtractState) (p : PredRecord), p.rtype = .pit_imminent →
       truthyB p.result.pit_imminent = false →
       (extractStep s p).1.prev_pit_imminent = false) ∧
    (∀ (l : List PredRecord) (s : ExtractState),
       (extractAux s l).countP isPitEvent =
         (pitTrace s.prev_pit_imminent l).count true) ∧
    (∀ (l : List PredRecord) (i j : ℕ), i < j →
       (pitTrace false l).get? i = some true →
       (pitTrace false l).get? j = some true →
       ∃ k, i < k ∧ k < j ∧ ∃ p, l.get? k = some p ∧ isPitReset p = true) := by
  refine ⟨?_, ?_, ?_, fun l s => extractAux_pit_countP l s,
    fun l i j hij h1 h2 => pit_events_separated l false i j hij h1 h2⟩
  · intro s p hp
    rw [(extractStep_pit_count s p).1]
    by_cases h1 : truthyB p.result.pit_imminent = true <;>
      by_cases h2 : s.prev_pit_imminent = true <;>
        by_cases h3 : (p.result.probability).getD 0 > 7/10 <;>
          simp [pitEmit, hp, h1, h2, h3]
  · intro s p hp hprev
    rw [(extractStep_pit_count s p).2, (extractStep_pit_count s p).1]
    by_cases he : pitEmit s.prev_pit_imminent p = true
    · simp [pitNext_of_emit he, he]
    · have hne : pitEmit s.prev_pit_imminent p = false := by
        simpa using he
      simp [pitNext, pitEmit, hp, hne, hprev, ite_self]
  · intro s p hp htr
    rw [(extractStep_pit_count s p).2]
    simp [pitNext, pitEmit, hp, htr]

/-- Witness for C7: at the first record of the rising-falling-rising pit log
the event fires (flag truthy, probability 0.9 > 0.7, previous flag false),
and between the two emissions (positions 0 and 2) sits the falsy-flag reset
record. -/
theorem C7_witness :
    (extractStep ⟨none, false⟩ (pitRec true (9/10))).2.countP isPitEvent = 1 ∧
    (∃ k, 0 < k ∧ k < 2 ∧ ∃ p, c7Log.get? k = some p ∧ isPitReset p = true) := by
  constructor
  · exact (C7_pit_rising_edge.1 ⟨none, false⟩ (pitRec true (9/10)) rfl).mpr
      ⟨rfl, by norm_num [pitRec], rfl⟩
  · refine C7_pit_rising_edge.2.2.2.2 c7Log 0 2 (by norm_num) ?_ ?_ <;>
      norm_num [pitTrace, pitEmit, pitNext, c7Log, pitRec, truthyB, isPitReset]

/-- Claim C6: for every valid loaded model state, each returned
confidence/probability lies in [0, 1]: the regressor's confidence equals
`_estimate_confidence` (0.5 + 0.5 × max feature importance capped at 1.0,
or the 0.75 default without importances), and each classifier's value is
the maximum class probability; with nonnegative importances and class
probabilities in [0, 1] all three land in [0, 1]. -/
theorem C6_confidence_in_unit_interval :
    (∀ (e : EngineState) (X : List ℚ) (m : RegressorModel) (v c : ℚ),
       e.lap_time_model = some m →
       (∀ q ∈ m.featureImportances.getD [], 0 ≤ q) →
       predict_lap_time e X = .ok (v, c) →
       c = estimateConfidence m ∧ 0 ≤ c ∧ c ≤ 1) ∧
    (∀ m : RegressorModel, m.featureImportances = none →
       estimateConfidence m = 3/4) ∧
    (∀ (imps : List ℚ) (mx : ℚ) (m : RegressorModel),
       m.featureImportances = some imps → pyMax imps = some mx →
       estimateConfidence m = min (1/2 + 1/2 * mx) 1) ∧
    (∀ (e : EngineState) (X : List ℚ) (m : ClassifierModel Bool) (b : Bool) (pr : ℚ),
       e.pit_imminent_model = some m →
       (∀ q ∈ m.predictProbaFn X, 0 ≤ q ∧ q ≤ 1) →
       predict_pit_imminent e X = .ok (b, pr) →
       (pr ∈ m.predictProbaFn X ∧ ∀ q ∈ m.predictProbaFn X, q ≤ pr) ∧
       0 ≤ pr ∧ pr ≤ 1) ∧
    (∀ (e : EngineState) (X : List ℚ) (m : ClassifierModel String)
       (lbl : String) (pr : ℚ),
       e.tire_compound_model = some m →
       (∀ q ∈ m.predictProbaFn X, 0 ≤ q ∧ q ≤ 1) →
       predict_tire_compound e X = .ok (lbl, pr) →
       (pr ∈ m.predictProbaFn X ∧ ∀ q ∈ m.predictProbaFn X, q ≤ pr) ∧
       0 ≤ pr ∧ pr ≤ 1) := by
  refine ⟨?_, ?_, ?_, ?_, ?_⟩
  · intro e X m v c hm himp hok
    simp only [predict_lap_time, hm, Except.ok.injEq, Prod.mk.injEq] at hok
    obtain ⟨hbounds1, hbounds2⟩ := estimateConfidence_bounds m himp
    exact ⟨hok.2.symm, hok.2 ▸ hbounds1, hok.2 ▸ hbounds2⟩
  · intro m hnone
    simp only [estimateConfidence, hnone]
    rw [min_eq_left (by norm_num)]
  · intro imps mx m hsome hmx
    simp [estimateConfidence, hsome, hmx]
  · intro e X m b pr hm hpro hok
    cases hmx : pyMax (m.predictProbaFn X) with
    | none => simp [predict_pit_imminent, hm, hmx] at hok
    | some p =>
        simp only [predict_pit_imminent, hm, hmx, Except.ok.injEq, Prod.mk.injEq] at hok
        obtain ⟨-, hpr⟩ := hok
        subst hpr
        obtain ⟨hmem, hle⟩ := pyMax_spec hmx
        exact ⟨⟨hmem, hle⟩, (hpro p hmem).1, (hpro p hmem).2⟩
  · intro e X m lbl pr hm hpro hok
    cases hmx : pyMax (m.predictProbaFn X) with
    | none => simp [predict_tire_compound, hm, hmx] at hok
    | some p =>
        simp only [predict_tire_compound, hm, hmx, Except.ok.injEq, Prod.mk.injEq] at hok
        obtain ⟨-, hpr⟩ := hok
        subst hpr
        obtain ⟨hmem, hle⟩ := pyMax_spec hmx
        exact ⟨⟨hmem, hle⟩, (hpro p hmem).1, (hpro p hmem).2⟩

/-- Witness for C6: the pit classifier of the fully-loaded engine on the
empty feature row returns probability 0.7 = max [0.3, 0.7], which lies in
[0, 1]. -/
theorem C6_witness :
    ((7/10 : ℚ) ∈ [(3:ℚ)/10, 7/10] ∧ ∀ q ∈ [(3:ℚ)/10, 7/10], q ≤ 7/10) ∧
    (0:ℚ) ≤ 7/10 ∧ (7:ℚ)/10 ≤ 1 := by
  have hok : predict_pit_imminent engFull [] = .ok (true, 7/10) := by
    simp only [predict_pit_imminent, engFull, pyMax, List.foldl]
    rw [max_eq_right (by norm_num)]
  have hpro : ∀ q ∈ [(3:ℚ)/10, 7/10], 0 ≤ q ∧ q ≤ 1 := by
    intro q hq
    rcases List.mem_cons.mp hq with h | h
    · rw [h]; norm_num
    · rw [List.mem_singleton.mp h]; norm_num
  exact C6_confidence_in_unit_interval.2.2.2.1 engFull []
    ⟨fun _ => true, fun _ => [3/10, 7/10]⟩ true (7/10) rfl hpro hok

/-- Counterexample to C8 as stated: there is no single fixed placeholder
string returned on collaborator failure — the returned string embeds the
failure message, so two different failures produce two different strings. -/
theorem C8_counterexample :
    ¬ ∃ fixed : String, ∀ e : String, generate_story true (.failure e) = fixed := by
  rintro ⟨f, hf⟩
  exact absurd ((hf "x").trans (hf "y").symm) (by decide)

/-- Claim C8 (amended): `generate_story` never raises past the call boundary
(it is total, the catch-all `except` turning any collaborator failure into a
returned string); when the collaborator is unconfigured it returns the fixed
placeholder "Story unavailable: Gemini API key not configured."; on a
collaborator failure it returns "Story generation failed: " followed by the
failure message (labeled, but not one fixed string); on an empty response it
returns the fixed string "Unable to generate race story at this time.". -/
theorem C8_amended_degradation :
    (∀ oc : GenOutcome, generate_story false oc =
       "Story unavailable: Gemini API key not configured.") ∧
    (∀ e : String, generate_story true (.failure e) =
       "Story generation failed: " ++ e) ∧
    generate_story true .empty = "Unable to generate race story at this time." :=
  ⟨fun _ => rfl, fun _ => rfl, rfl⟩

/-- Counterexample to C2 as stated: an engine with all three models present
but the scaler artifact absent still fails `predict_all` with the
ModelUnavailable-class error (the `models_loaded` flag also requires the
scaler). -/
theorem C2_counterexample :
    engNoScaler.lap_time_model.isSome = true ∧
    engNoScaler.pit_imminent_model.isSome = true ∧
    engNoScaler.tire_compound_model.isSome = true ∧
    predict_all engNoScaler [] = .error .modelNotLoaded :=
  ⟨rfl, rfl, rfl, rfl⟩

/-- Claim C2 (amended): `predict_all` fails with the ModelUnavailable-class
error exactly when at least one of the three models OR the shared scaler is
absent; whenever all four artifacts are present (with well-formed
classifiers) it returns the combined result of the three per-task
operations and never partially succeeds. -/
theorem C2_amended_all_or_nothing :
    ∀ (e : EngineState) (X : List ℚ),
      (∀ m, e.pit_imminent_model = some m → m.predictProbaFn X ≠ []) →
      (∀ m, e.tire_compound_model = some m → m.predictProbaFn X ≠ []) →
      (modelsLoaded e = true ↔
        (e.lap_time_model.isSome = true ∧ e.pit_imminent_model.isSome = true ∧
         e.tire_compound_model.isSome = true ∧ e.scaler.isSome = true)) ∧
      (modelsLoaded e = false → predict_all e X = .error .modelNotLoaded) ∧
      ((∃ r, predict_all e X = .ok r) ↔ modelsLoaded e = true) ∧
      (∀ r, predict_all e X = .ok r →
        predict_lap_time e X = .ok (r.lap_time, r.lap_time_confidence) ∧
        predict_pit_imminent e X = .ok (r.pit_imminent, r.pit_probability) ∧
        predict_tire_compound e X = .ok (r.tire_compound, r.tire_confidence)) := by
  intro e X hpit htire
  refine ⟨by simp [modelsLoaded]; tauto, ?_, ?_, ?_⟩
  · intro hml
    simp [predict_all, hml]
  · constructor
    · rintro ⟨r, hr⟩
      by_contra hml
      have hml' : modelsLoaded e = false := by simpa using hml
      simp [predict_all, hml'] at hr
    · intro hml
      have hml' := hml
      simp only [modelsLoaded, Bool.and_eq_true, Option.isSome_iff_exists] at hml'
      obtain ⟨⟨⟨⟨m1, h1⟩, ⟨m2, h2⟩⟩, ⟨m3, h3⟩⟩, -⟩ := hml'
      rcases hp2 : m2.predictProbaFn X with _ | ⟨a2, t2⟩
      · exact absurd hp2 (hpit m2 h2)
      rcases hp3 : m3.predictProbaFn X with _ | ⟨a3, t3⟩
      · exact absurd hp3 (htire m3 h3)
      refine ⟨⟨m1.predictFn X, estimateConfidence m1, m2.predictFn X,
        t2.foldl max a2, m3.predictFn X, t3.foldl max a3⟩, ?_⟩
      simp [predict_all, hml, predict_lap_time, h1, predict_pit_imminent, h2,
        hp2, predict_tire_compound, h3, hp3, pyMax]
  · intro r hr
    by_cases hml : modelsLoaded e = true
    · rcases hlt : predict_lap_time e X with er | lt
      · simp [predict_all, hml, hlt] at hr
      rcases hpi : predict_pit_imminent e X with er | pi
      · simp [predict_all, hml, hlt, hpi] at hr
      rcases htc : predict_tire_compound e X with er | tc
      · simp [predict_all, hml, hlt, hpi, htc] at hr
      simp only [predict_all, hml, Bool.not_true, Bool.false_eq_true, if_false,
        hlt, hpi, htc, Except.ok.injEq] at hr
      subst hr
      simp [hlt, hpi, htc]
    · have hml' : modelsLoaded e = false := by simpa using hml
      simp [predict_all, hml'] at hr

/-- Witness for C2: the fully loaded engine succeeds on the empty feature
row (its classifiers return the nonempty probability row [0.3, 0.7]). -/
theorem C2_witness :
    ∃ r, predict_all engFull [] = .ok r :=
  ((C2_amended_all_or_nothing engFull []
      (by intro m hm; simp [engFull] at hm; subst hm; simp)
      (by intro m hm; simp [engFull] at hm; subst hm; simp)).2.2.1).mpr rfl

/-- Counterexample to C5 as stated: on an empty input with the canonical
required-field list, the validation failure does not name (only) the first
missing field — `validate_input_data` reports the whole set of missing
fields. -/
theorem C5_counterexample :
    ¬ claimedFirstMissingOnly [] NUMERIC_FEATURES := by
  intro h
  have hfind : NUMERIC_FEATURES.find? (fun g => (dictGet [] g).isNone) =
      some "vehicle_id" := by decide
  have hone := h "vehicle_id" hfind
  have hval : validate_input_data [] NUMERIC_FEATURES =
      .missingError NUMERIC_FEATURES := by decide
  rw [hval] at hone
  exact absurd hone (by decide)

/-- Claim C5 (amended): when a required field is absent, validation fails
with an error naming the set of all missing required fields, the first
missing field (in canonical order) among them; when all fields are present
but one is null/NaN, validation fails naming the first offending field in
canonical order; inputs with all required fields present, non-null and
non-NaN pass; and both validation and feature extraction depend only on the
required fields — extra input fields are ignored. -/
theorem C5_amended_validation :
    (∀ (data : Dict) (required : List String) (f : String),
       required.find? (fun g => (dictGet data g).isNone) = some f →
       validate_input_data data required =
         .missingError (required.filter (fun g => (dictGet data g).isNone)) ∧
       f ∈ required.filter (fun g => (dictGet data g).isNone)) ∧
    (∀ (data : Dict) (required : List String) (f : String),
       (∀ g ∈ required, (dictGet data g).isSome = true) →
       required.find? (fun g => isInvalidVal ((dictGet data g).getD .vNone)) = some f →
       validate_input_data data required = .invalidValue f) ∧
    (∀ (data : Dict) (required : List String),
       (∀ g ∈ required, (dictGet data g).isSome = true ∧
          isInvalidVal ((dictGet data g).getD .vNone) = false) →
       validate_input_data data required = .ok) ∧
    (∀ (data data' : Dict) (required : List String),
       (∀ g ∈ required, dictGet data' g = dictGet data g) →
       validate_input_data data' required = validate_input_data data required ∧
       extractFeatures data' required = extractFeatures data required) := by
  refine ⟨?_, ?_, ?_, ?_⟩
  · intro data required f hfind
    have hpf : (dictGet data f).isNone = true := by
      have h2 := List.find?_some hfind
      simpa using h2
    have hmem : f ∈ required.filter (fun g => (dictGet data g).isNone) :=
      List.mem_filter.mpr ⟨List.mem_of_find?_eq_some hfind, hpf⟩
    have hne : required.filter (fun g => (dictGet data g).isNone) ≠ [] :=
      List.ne_nil_of_mem hmem
    refine ⟨?_, hmem⟩
    simp only [validate_input_data]
    rw [if_pos hne]
  · intro data required f hall hfind
    have hnil := filter_isNone_eq_nil required data hall
    simp only [validate_input_data, hnil, ne_eq, not_true_eq_false, if_false, hfind]
  · intro data required hall
    have hnil := filter_isNone_eq_nil required data (fun g hg => (hall g hg).1)
    have hfind : required.find?
        (fun g => isInvalidVal ((dictGet data g).getD .vNone)) = none :=
      List.find?_eq_none.mpr (fun g hg => by simp [(hall g hg).2])
    simp only [validate_input_data, hnil, ne_eq, not_true_eq_false, if_false, hfind]
  · intro data data' required h
    constructor
    · simp only [validate_input_data,
        filter_lookup_congr required data data' h (fun o => o.isNone),
        find?_lookup_congr required data data' h
          (fun o => isInvalidVal (o.getD .vNone))]
    · exact extractFeatures_congr required data data' h

/-- Witness for C5: a one-field dict passes validation (the field is present
with a finite numeric value), and adding an extra field changes neither
validation nor extraction. -/
theorem C5_witness :
    validate_input_data [("a", .vNum 1)] ["a"] = .ok ∧
    validate_input_data [("a", .vNum 1), ("extra", .vNone)] ["a"] =
      validate_input_data [("a", .vNum 1)] ["a"] :=
  ⟨C5_amended_validation.2.2.1 [("a", .vNum 1)] ["a"] (by decide),
   (C5_amended_validation.2.2.2 [("a", .vNum 1)]
      [("a", .vNum 1), ("extra", .vNone)] ["a"] (by decide)).1⟩

/-- Counterexample to C1 as stated: a Predict on a closed (but existing)
session succeeds and appends a record — the session store ends up with the
session still closed and its prediction log grown from 0 to 1 entries. -/
theorem C1_counterexample :
    (lookupSession closedStore "race_1").map Session.status = some .closed ∧
    (Routes.predict_lap_time closedStore engLapOnly reqFull "e").map
        (fun p => (lookupSession p.1 "race_1").map
          (fun s => (s.status, s.predictions.length))) =
      .ok (some (.closed, 1)) :=
  ⟨rfl, rfl⟩

/-- Claim C1 (amended): closing a session only updates its status field and
no Predict operation reads the status, so each of the four Predict routes
behaves identically (up to that status field) on closed and active
sessions — in particular a successful Predict on a closed session still
appends its record; and the stored records remain readable via
ListPredictions regardless of status changes. -/
theorem C1_amended_close_does_not_block_append :
    (∀ (st : SessionStore) (id : String) (c : SessionStatus) (eng : EngineState)
       (req : PredictionRequest) (expl : String),
       Routes.predict_lap_time (setStatus st id c) eng req expl =
         (Routes.predict_lap_time st eng req expl).map
           (fun p => (setStatus p.1 id c, p.2))) ∧
    (∀ (st : SessionStore) (id : String) (c : SessionStatus) (eng : EngineState)
       (req : PredictionRequest) (expl : String),
       Routes.predict_pit (setStatus st id c) eng req expl =
         (Routes.predict_pit st eng req expl).map
           (fun p => (setStatus p.1 id c, p.2))) ∧
    (∀ (st : SessionStore) (id : String) (c : SessionStatus) (eng : EngineState)
       (req : PredictionRequest) (expl : String),
       Routes.predict_tire (setStatus st id c) eng req expl =
         (Routes.predict_tire st eng req expl).map
           (fun p => (setStatus p.1 id c, p.2))) ∧
    (∀ (st : SessionStore) (id : String) (c : SessionStatus) (eng : EngineState)
       (req : PredictionRequest),
       Routes.predict_all (setStatus st id c) eng req =
         (Routes.predict_all st eng req).map
           (fun p => (setStatus p.1 id c, p.2))) ∧
    (∀ (st : SessionStore) (id : String) (c : SessionStatus) (id2 : String),
       Routes.get_session_predictions (setStatus st id c) id2 =
         Routes.get_session_predictions st id2) ∧
    (∀ (st : SessionStore) (id : String),
       Routes.close_session st id = .error .notFound ∨
       ∃ s, lookupSession st id = some s ∧
         Routes.close_session st id =
           .ok (setStatus st id .closed, { s with status := SessionStatus.closed })) := by
  refine ⟨predict_lap_time_setStatus, predict_pit_setStatus, predict_tire_setStatus,
    predict_all_setStatus, get_session_predictions_setStatus, ?_⟩
  intro st id
  rcases hls : lookupSession st id with _ | s
  · exact Or.inl (by simp [Routes.close_session, hls])
  · exact Or.inr ⟨s, rfl, by simp [Routes.close_session, hls]⟩

end LapLens
